import Mathlib

/-!
Verification development for `three-wboit` (`src/WboitPass.js`), a weighted,
blended order-independent transparency pass for three.js.

The JavaScript source is shallowly embedded: materials and scene objects are
identified by natural-number ids, mutable stores are modelled as functions
from ids to state records, JS `Map` caches are modelled as insertion-ordered
association lists, and the per-frame `render` method is modelled as a pure
state transformer that additionally produces the ordered list of renderer
operations (target binds, clears, scene renders, sub-pass blits) it issues.
-/

set_option autoImplicit false

namespace Wboit

/-! ## three.js constants

Numeric values of the three.js blending/equation/factor constants imported at
the top of `WboitPass.js`. -/

def NoBlending : Nat := 0
def NormalBlending : Nat := 1
def CustomBlending : Nat := 5
def AddEquation : Nat := 100
def ZeroFactor : Nat := 200
def OneFactor : Nat := 201
def SrcAlphaFactor : Nat := 204
def OneMinusSrcAlphaFactor : Nat := 205

/-- Modelled from the spec: the `WboitStages` enumeration is imported from
`./materials/MeshWboitMaterial.js`, which is not under `src/`.  The spec's
data model lists the stages as `Normal` (default/restore), `Accumulation`
(weighted color summation) and `Revealage` (coverage summation), the uniform
delivery path stringifies a stage with `stage.toFixed(1)`, and `Normal` is the
default stage, so the stages are modelled as the numbers 0.0, 1.0, 2.0
(held as naturals here).  The source spells the accumulation member
`Acummulation`, which is kept. -/
def WboitStages.Normal : Nat := 0

/-- Modelled from the spec: see `WboitStages.Normal`. -/
def WboitStages.Acummulation : Nat := 1

/-- Modelled from the spec: see `WboitStages.Normal`. -/
def WboitStages.Revealage : Nat := 2

/-- JS `Number.prototype.toFixed(1)` on a small non-negative whole number. -/
def toFixed1 (n : Nat) : String := toString n ++ ".0"

/-! ## Data model: materials, objects, stores -/

/-- State of one three.js material, restricted to the fields `WboitPass` reads
or writes.  `renderStage` is `none` when the material has no such property
(reading it in JS yields `undefined`); `uniformsRenderStage` is `none` when
the material has no `uniforms` object or no `uniforms["renderStage"]` entry,
and otherwise holds that uniform's `value` (a string after the pass writes
`stage.toFixed(1)` into it). -/
structure MatState where
  transparent : Bool
  wboitEnabled : Bool
  blending : Nat
  blendEquation : Nat
  blendSrc : Nat
  blendDst : Nat
  depthTest : Bool
  depthWrite : Bool
  renderStage : Option Nat
  uniformsRenderStage : Option String
deriving DecidableEq, Repr

/-- State of one scene-graph object: its `visible` flag and its `material`
property.  `material := none` models a falsy `object.material` (the object is
skipped by `gatherMeshes`); `material := some l` holds the material-id list
after the source's normalization
`Array.isArray(object.material) ? object.material : [object.material]`. -/
structure ObjState where
  visible : Bool
  material : Option (List Nat)
deriving DecidableEq, Repr

/-- Pointwise update of an id-indexed store, modelling in-place mutation of
the object/material that an id denotes. -/
def updStore {α : Type} (s : Nat → α) (k : Nat) (v : α) : Nat → α :=
  fun j => if j = k then v else s j

/-! ## JS `Map` caches as insertion-ordered association lists -/

/-- `Map.prototype.get`: the value stored at `k`, if any. -/
def lookupId {α : Type} (c : List (Nat × α)) (k : Nat) : Option α :=
  (c.find? (fun p => p.1 == k)).map (fun p => p.2)

/-- `Map.prototype.set`: overwrite in place if the key is present, else append
(JS `Map` preserves insertion order). -/
def mapSet {α : Type} (c : List (Nat × α)) (k : Nat) (v : α) : List (Nat × α) :=
  if c.any (fun p => p.1 == k) then c.map (fun p => if p.1 == k then (k, v) else p)
  else c ++ [(k, v)]

/-- `Map.get` on a key inserted by the pass itself always hits; JS would yield
`undefined` on a miss.  Reads of the numeric blend caches are modelled with
default `0` for the (unreachable) miss case. -/
def mapGetNat (c : List (Nat × Nat)) (k : Nat) : Nat :=
  (lookupId c k).getD 0

/-- As `mapGetNat`, for the boolean depth caches (default `false` models the
falsy `undefined` of an unreachable miss). -/
def mapGetBool (c : List (Nat × Bool)) (k : Nat) : Bool :=
  (lookupId c k).getD false

/-! ## The classification flag loop of `gatherMeshes`

The source computes, over an object's material list,
`isTransparent = isTransparent && materials[i].transparent` and
`isWboitCapable = isWboitCapable && isTransparent && materials[i].wboitEnabled`
with both accumulators starting at `true`. -/

def foldFlagsAux (mats : Nat → MatState) (p : Bool × Bool) (l : List Nat) : Bool × Bool :=
  l.foldl (fun q i =>
    let isT := q.1 && (mats i).transparent
    (isT, q.2 && isT && (mats i).wboitEnabled)) p

def foldFlags (mats : Nat → MatState) (l : List Nat) : Bool × Bool :=
  foldFlagsAux mats (true, true) l

def allTransparent (mats : Nat → MatState) (l : List Nat) : Bool :=
  l.all (fun i => (mats i).transparent)

def allWboitEnabled (mats : Nat → MatState) (l : List Nat) : Bool :=
  l.all (fun i => (mats i).wboitEnabled)

/-- Helper chain capturing the second accumulator of the flag loop. -/
def wboitChain (mats : Nat → MatState) : Bool → List Nat → Bool
  | _, [] => true
  | a, i :: r =>
    ((a && (mats i).transparent) && (mats i).wboitEnabled) &&
      wboitChain mats (a && (mats i).transparent) r

/-! ## `gatherMeshes`: classification of the scene's objects

`render` declares three mesh arrays and seven `Map` caches, then
`gatherMeshes` traverses the scene, classifying every visible object that has
a material and populating the caches.  The whole collection of locals mutated
by the traversal is bundled as `GatherOut`. -/

structure GatherOut where
  mats : Nat → MatState
  opaqueMeshes : List Nat
  transparentMeshes : List Nat
  wboitMeshes : List Nat
  visibilityCache : List (Nat × Bool)
  blendingCache : List (Nat × Nat)
  blendEquationCache : List (Nat × Nat)
  blendSrcCache : List (Nat × Nat)
  blendDstCache : List (Nat × Nat)
  depthTestCache : List (Nat × Bool)
  depthWriteCache : List (Nat × Bool)

def initGather (mats : Nat → MatState) : GatherOut :=
  { mats := mats
    opaqueMeshes := []
    transparentMeshes := []
    wboitMeshes := []
    visibilityCache := []
    blendingCache := []
    blendEquationCache := []
    blendSrcCache := []
    blendDstCache := []
    depthTestCache := []
    depthWriteCache := [] }

/-- One `Map.set` per material in `l`, storing `f` of the material's current
state (used for the depth and blend snapshot caches). -/
def cacheNat (mats : Nat → MatState) (l : List Nat) (f : MatState → Nat)
    (c : List (Nat × Nat)) : List (Nat × Nat) :=
  l.foldl (fun c i => mapSet c i (f (mats i))) c

/-- Boolean variant of `cacheNat`. -/
def cacheBool (mats : Nat → MatState) (l : List Nat) (f : MatState → Bool)
    (c : List (Nat × Bool)) : List (Nat × Bool) :=
  l.foldl (fun c i => mapSet c i (f (mats i))) c

/-- The source's per-classification depth mutation: for every material of the
object, `depthTest = tv; depthWrite = wv`. -/
def setDepthAll (mats : Nat → MatState) (l : List Nat) (tv wv : Bool) : Nat → MatState :=
  l.foldl (fun s i => updStore s i { s i with depthTest := tv, depthWrite := wv }) mats

/-- Body of the `gatherMeshes` visitor after the material/visibility guards,
for an object `oId` with (normalized) material list `l` and visibility `vis`
(necessarily `true` at this point).  The source computes the two flags and
fills the depth caches in one read-only loop over the materials before
branching; the loop is split here into `foldFlags` and two `cacheBool` folds,
which is observationally identical because the loop never reads the caches or
mutates the materials. -/
def gatherClassify (gs : GatherOut) (oId : Nat) (l : List Nat) (vis : Bool) : GatherOut :=
  let isTransparent := (foldFlags gs.mats l).1
  let isWboitCapable := (foldFlags gs.mats l).2
  let gs1 := { gs with
    depthTestCache := cacheBool gs.mats l (fun m => m.depthTest) gs.depthTestCache
    depthWriteCache := cacheBool gs.mats l (fun m => m.depthWrite) gs.depthWriteCache }
  let gs2 :=
    if isWboitCapable = false then
      if isTransparent = false then
        { gs1 with
          opaqueMeshes := gs1.opaqueMeshes ++ [oId]
          mats := setDepthAll gs1.mats l true true }
      else
        { gs1 with
          transparentMeshes := gs1.transparentMeshes ++ [oId]
          mats := setDepthAll gs1.mats l true false }
    else
      { gs1 with
        wboitMeshes := gs1.wboitMeshes ++ [oId]
        blendingCache := cacheNat gs1.mats l (fun m => m.blending) gs1.blendingCache
        blendEquationCache := cacheNat gs1.mats l (fun m => m.blendEquation) gs1.blendEquationCache
        blendSrcCache := cacheNat gs1.mats l (fun m => m.blendSrc) gs1.blendSrcCache
        blendDstCache := cacheNat gs1.mats l (fun m => m.blendDst) gs1.blendDstCache }
  { gs2 with visibilityCache := mapSet gs2.visibilityCache oId vis }

/-- The `gatherMeshes` visitor for one traversed object: skip when
`object.material` is falsy or `object.visible` is falsy, else classify. -/
def gatherStep (objs : Nat → ObjState) (gs : GatherOut) (oId : Nat) : GatherOut :=
  match (objs oId).material with
  | none => gs
  | some l =>
    if (objs oId).visible = false then gs
    else gatherClassify gs oId l (objs oId).visible

/-- `gatherMeshes`: `scene.traverse` visits the scene's objects in order. -/
def gatherMeshes (sceneObjects : List Nat) (objs : Nat → ObjState)
    (mats : Nat → MatState) : GatherOut :=
  sceneObjects.foldl (gatherStep objs) (initGather mats)

/-! ## `changeVisible` and `resetVisible` -/

def setVisibleAll (objs : Nat → ObjState) (l : List Nat) (v : Bool) : Nat → ObjState :=
  l.foldl (fun s o => updStore s o { s o with visible := v }) objs

/-- `changeVisible(opaqueVisible, transparentVisible, wboitVisible)`. -/
def changeVisible (g : GatherOut) (objs : Nat → ObjState)
    (ov tv wv : Bool) : Nat → ObjState :=
  setVisibleAll (setVisibleAll (setVisibleAll objs g.opaqueMeshes ov)
    g.transparentMeshes tv) g.wboitMeshes wv

/-- `resetVisible`: for each `[key, value]` of the visibility cache (in
insertion order) restore `key.visible = value` and, when the key has a
material, write the cached depth state back into each material.  The source
assigns `materials[i].depthWrite = testCache.get(materials[i])` and
`materials[i].depthTest = writeCache.get(materials[i])` — i.e. `depthWrite`
is written from the depth-*test* cache and `depthTest` from the
depth-*write* cache — and that cross-assignment is embedded verbatim. -/
def resetVisible (visCache : List (Nat × Bool)) (tc wc : List (Nat × Bool))
    (objs : Nat → ObjState) (mats : Nat → MatState) :
    (Nat → ObjState) × (Nat → MatState) :=
  visCache.foldl (fun st kv =>
    let o := st.1 kv.1
    let objs1 := updStore st.1 kv.1 { o with visible := kv.2 }
    let mats1 := match o.material with
      | none => st.2
      | some l => l.foldl (fun ms i =>
          updStore ms i { ms i with
            depthWrite := mapGetBool tc i
            depthTest := mapGetBool wc i }) st.2
    (objs1, mats1)) (objs, mats)

/-! ## `prepareWboitBlending` -/

/-- JS truthiness of a numeric property that may be absent (`undefined`). -/
def truthyNum : Option Nat → Bool
  | some v => v != 0
  | none => false

/-- The stage-channel update at the top of the configurator's material loop:
`if (materials[i].renderStage) { materials[i].renderStage = stage; } else if
(materials[i].uniforms && materials[i].uniforms["renderStage"]) { ... =
stage.toFixed(1); }`. -/
def stageChannel (stage : Nat) (m : MatState) : MatState :=
  if truthyNum m.renderStage then { m with renderStage := some stage }
  else if m.uniformsRenderStage.isSome then
    { m with uniformsRenderStage := some (toFixed1 stage) }
  else m

/-- The configurator's `switch (stage)` on the blend/depth fields, applied
after the stage-channel update.  The blend caches are passed in because the
`default` branch restores from them; `i` is the material's id (the caches'
key). -/
def applyStageSwitch (stage : Nat) (bc bec bsc bdc : List (Nat × Nat))
    (i : Nat) (m1 : MatState) : MatState :=
  if stage = WboitStages.Acummulation then
    { m1 with blending := CustomBlending, blendEquation := AddEquation,
              blendSrc := OneFactor, blendDst := OneFactor,
              depthWrite := false, depthTest := true }
  else if stage = WboitStages.Revealage then
    { m1 with blending := CustomBlending, blendEquation := AddEquation,
              blendSrc := ZeroFactor, blendDst := OneMinusSrcAlphaFactor,
              depthWrite := false, depthTest := true }
  else
    { m1 with blending := mapGetNat bc i, blendEquation := mapGetNat bec i,
              blendSrc := mapGetNat bsc i, blendDst := mapGetNat bdc i }

/-- Body of the configurator's material loop for one material: the
`continue` guard (`wboitEnabled !== true || transparent !== true`, negated),
then the stage-channel update followed by the stage switch. -/
def applyStageToMat (stage : Nat) (bc bec bsc bdc : List (Nat × Nat))
    (i : Nat) (m : MatState) : MatState :=
  if m.wboitEnabled && m.transparent then
    applyStageSwitch stage bc bec bsc bdc i (stageChannel stage m)
  else m

/-- The material list of a mesh as read by the configurator (`Array.isArray`
normalization; a mesh in the WBOIT group always has a material, so the
default `[]` for a falsy material is unreachable there). -/
def matListOf (objs : Nat → ObjState) (o : Nat) : List Nat :=
  ((objs o).material).getD []

/-- Inner loop of `prepareWboitBlending` over one mesh's materials. -/
def applyStageList (stage : Nat) (bc bec bsc bdc : List (Nat × Nat))
    (l : List Nat) (mats : Nat → MatState) : Nat → MatState :=
  l.foldl (fun ms i => updStore ms i (applyStageToMat stage bc bec bsc bdc i (ms i))) mats

/-- `prepareWboitBlending(stage)`: for each mesh of the WBOIT group, run the
material loop. -/
def prepareWboitBlending (stage : Nat) (wboitMeshes : List Nat)
    (objs : Nat → ObjState) (bc bec bsc bdc : List (Nat × Nat))
    (mats : Nat → MatState) : Nat → MatState :=
  wboitMeshes.foldl (fun ms o => applyStageList stage bc bec bsc bdc (matListOf objs o) ms) mats

/-! ## The `render` method as a state machine

`render` mutates the object/material stores and the renderer's global state,
and issues a fixed sequence of renderer operations.  The model returns the
final state together with the ordered operation trace.  Sub-pass internals
(`ShaderPass.render`, a three.js library call, including its own target bind
and the `uGamma` uniform updates on the pass-owned copy shaders) are
abstracted as a single `blit` operation each; they touch no scene material,
no scene object, and no state the renderer keeps after the pass restores it. -/

/-- A JS value held in the pass's `clearColor` property (a three.js `Color`,
a numeric color, `null`, or `undefined`). -/
inductive JSColorVal
  | undef
  | nullv
  | num (n : Int)
  | color (r g b : Rat)
deriving DecidableEq, Repr

/-- JS truthiness of a `clearColor`-like value (`0` is falsy, any object is
truthy). -/
def truthy : JSColorVal → Bool
  | JSColorVal.undef => false
  | JSColorVal.nullv => false
  | JSColorVal.num n => n != 0
  | JSColorVal.color _ _ _ => true

/-- A render target reference: the pass's own targets or a host-owned one. -/
inductive TargetRef
  | base
  | accumulation
  | external (n : Nat)
deriving DecidableEq, Repr

/-- The four post-process sub-passes owned by `WboitPass`. -/
inductive SubPass
  | opaquePass
  | transparentPass
  | copyPass
  | compositePass
deriving DecidableEq, Repr

/-- One renderer operation issued by `render`. -/
inductive ROp
  | setRenderTarget (t : Option TargetRef)
  | setClearColor (c : JSColorVal) (a : Rat)
  | clearColor
  | clear
  | renderScene
  | blit (p : SubPass)
deriving DecidableEq, Repr

/-- The scene object held in `this.scene`: its `isScene` marker and its
object graph in traversal order. -/
structure SceneData where
  isScene : Bool
  objects : List Nat
deriving DecidableEq, Repr

/-- The `WboitPass` fields `render` reads: `this.scene` (`none` models `null`
or `undefined`), `this.clearColor` and `this.clearAlpha`. -/
structure PassState where
  scene : Option SceneData
  clearColor : JSColorVal
  clearAlpha : Rat

/-- Mutable state outside the pass: the object and material stores, the
renderer's global state, and the scene's `overrideMaterial`. -/
structure World where
  objs : Nat → ObjState
  mats : Nat → MatState
  autoClear : Bool
  rClearColor : JSColorVal
  rClearAlpha : Rat
  renderTarget : Option TargetRef
  sceneOverrideMaterial : Option Nat

/-- The fixed operation sequence `render` issues after the optional initial
clear of the write buffer: opaque, simple-transparent, accumulation,
revealage and composite stages, then the restore of the renderer's target and
clear color/alpha. -/
def wboitMainOps (writeBuffer oldTarget : Option TargetRef)
    (oldColor : JSColorVal) (oldAlpha : Rat) : List ROp :=
  [ROp.setRenderTarget (some TargetRef.base),
   ROp.setClearColor (JSColorVal.color 0 0 0) 0,
   ROp.clear,
   ROp.renderScene,
   ROp.blit SubPass.opaquePass,
   ROp.setRenderTarget (some TargetRef.base),
   ROp.clearColor,
   ROp.renderScene,
   ROp.blit SubPass.transparentPass,
   ROp.setRenderTarget (some TargetRef.base),
   ROp.clearColor,
   ROp.renderScene,
   ROp.blit SubPass.copyPass,
   ROp.setRenderTarget (some TargetRef.base),
   ROp.setClearColor (JSColorVal.color 1 1 1) 1,
   ROp.clearColor,
   ROp.renderScene,
   ROp.setRenderTarget writeBuffer,
   ROp.blit SubPass.compositePass,
   ROp.setRenderTarget oldTarget,
   ROp.setClearColor oldColor oldAlpha]

/-- `WboitPass.render(renderer, writeBuffer)`. -/
def WboitPassRender (p : PassState) (writeBuffer : Option TargetRef)
    (w : World) : World × List ROp :=
  match p.scene with
  | none => (w, [])
  | some sc =>
    if sc.isScene = false then (w, [])
    else
      -- Save Current State
      let oldAutoClear := w.autoClear
      let oldClearAlpha := w.rClearAlpha
      let oldRenderTarget := w.renderTarget
      let oldOverrideMaterial := w.sceneOverrideMaterial
      let oldClearColor := w.rClearColor
      let w1 := { w with autoClear := false, sceneOverrideMaterial := none }
      -- Gather Opaque / Transparent Meshes
      let g := gatherMeshes sc.objects w1.objs w1.mats
      let w2 := { w1 with mats := g.mats }
      -- Clear Write Buffer (only when `this.clearColor` is truthy)
      let clearOps := if truthy p.clearColor then
          [ROp.setRenderTarget writeBuffer,
           ROp.setClearColor p.clearColor p.clearAlpha,
           ROp.clearColor]
        else []
      let w3 := if truthy p.clearColor then
          { w2 with renderTarget := writeBuffer,
                    rClearColor := p.clearColor, rClearAlpha := p.clearAlpha }
        else w2
      -- Render Opaque Objects (+ copy to write buffer)
      let w4 := { w3 with objs := changeVisible g w3.objs true false false,
                          renderTarget := some TargetRef.base,
                          rClearColor := JSColorVal.color 0 0 0, rClearAlpha := 0 }
      -- Render Transparent Objects (+ copy to write buffer)
      let w5 := { w4 with objs := changeVisible g w4.objs false true false,
                          renderTarget := some TargetRef.base }
      -- Render Wboit Objects, Accumulation Pass (+ copy to accumulation target)
      let w6 := { w5 with objs := changeVisible g w5.objs false false true }
      let w7 := { w6 with
        mats := prepareWboitBlending WboitStages.Acummulation g.wboitMeshes w6.objs
          g.blendingCache g.blendEquationCache g.blendSrcCache g.blendDstCache w6.mats,
        renderTarget := some TargetRef.base }
      -- Render Wboit Objects, Revealage Pass
      let w8 := { w7 with
        mats := prepareWboitBlending WboitStages.Revealage g.wboitMeshes w7.objs
          g.blendingCache g.blendEquationCache g.blendSrcCache g.blendDstCache w7.mats,
        renderTarget := some TargetRef.base,
        rClearColor := JSColorVal.color 1 1 1, rClearAlpha := 1 }
      -- Composite Wboit Objects
      let w9 := { w8 with renderTarget := writeBuffer }
      -- Restore Original State
      let w10 := { w9 with
        mats := prepareWboitBlending WboitStages.Normal g.wboitMeshes w9.objs
          g.blendingCache g.blendEquationCache g.blendSrcCache g.blendDstCache w9.mats }
      let rv := resetVisible g.visibilityCache g.depthTestCache g.depthWriteCache
        w10.objs w10.mats
      let w11 := { w10 with
        objs := rv.1, mats := rv.2,
        renderTarget := oldRenderTarget,
        rClearColor := oldClearColor, rClearAlpha := oldClearAlpha,
        sceneOverrideMaterial := oldOverrideMaterial,
        autoClear := oldAutoClear }
      (w11, clearOps ++ wboitMainOps writeBuffer oldRenderTarget oldClearColor oldClearAlpha)

/-! ## Capability probe (constructor, lines 207-255)

The probe renders a constant fill (`RGB = 1,1,1`, `A = 0`) into a 1x1 target of
each candidate type, reads the pixel back, denormalizes by the per-type
divisor, and accepts on framebuffer completeness plus fuzzy match — or
unconditionally on the last candidate.  The graphics context is abstracted as
a function from candidate type to the observed readback. -/

def testR : Rat := 1
def testG : Rat := 1
def testB : Rat := 1
def testA : Rat := 0

structure RGBA where
  r : Rat
  g : Rat
  b : Rat
  a : Rat
deriving DecidableEq, Repr

/-- What the context reports for one probe candidate: the framebuffer status
check and the raw `readPixels` values. -/
structure GLReadback where
  framebufferComplete : Bool
  pixels : RGBA
deriving DecidableEq, Repr

inductive TexType
  | FloatType
  | HalfFloatType
  | UnsignedByteType
deriving DecidableEq, Repr

def targetTypes : List TexType :=
  [TexType.FloatType, TexType.HalfFloatType, TexType.UnsignedByteType]

def targetDivisor : List Rat := [1, 15360, 255]

/-- `fuzzyEqual(a, b, epsilon = 0.01)` with the default epsilon. -/
def fuzzyEqual (a b : Rat) : Bool :=
  decide (a < b + 1 / 100) && decide (a > b - 1 / 100)

/-- The per-candidate test before the last-candidate fallback clause:
framebuffer completeness and the four fuzzy matches after division by the
candidate's divisor. -/
def probeCandidatePasses (ctx : TexType → GLReadback) (t : TexType) (divisor : Rat) : Bool :=
  let res := ctx t
  res.framebufferComplete
    && fuzzyEqual (res.pixels.r / divisor) testR
    && fuzzyEqual (res.pixels.g / divisor) testG
    && fuzzyEqual (res.pixels.b / divisor) testB
    && fuzzyEqual (res.pixels.a / divisor) testA

/-- The candidate loop: `complete = complete || i === targetTypes.length - 1`
(`rest.isEmpty` on the zipped candidate list), then `if (complete) break`. -/
def chooseLoop (ctx : TexType → GLReadback) : List (TexType × Rat) → Option TexType
  | [] => none
  | (t, d) :: rest =>
    if (probeCandidatePasses ctx t d || rest.isEmpty) = true then some t
    else chooseLoop ctx rest

def chooseTargetType (ctx : TexType → GLReadback) : Option TexType :=
  chooseLoop ctx (targetTypes.zip targetDivisor)

/-! ## Constructor outcome (lines 119-124) and target allocation -/

inductive JsErrorKind
  | referenceError
deriving DecidableEq, Repr

/-- Observable outcome of `new WboitPass(renderer, ...)`: whether
`console.error` ran, and the exception escaping the constructor, if any. -/
structure CtorOutcome where
  loggedError : Bool
  threw : Option JsErrorKind
deriving DecidableEq, Repr

/-- The guard at the top of the constructor:
`if (!renderer) return console.error("WboitPass: Renderer must be supplied!")`.
`console.error` logs and returns `undefined`, so a falsy renderer makes the
constructor execute `return undefined` before `super()` (line 124) has run. -/
def ctorEarlyReturnsBeforeSuper (renderer : Option Unit) : Bool :=
  renderer.isNone

/-- ECMAScript [[Construct]] semantics for a derived-class constructor
(`class WboitPass extends Pass`): a `return` whose value is `undefined`
completes by returning `this`, and reading `this` before `super()` has
initialized it throws a `ReferenceError`.  So with a falsy renderer the
constructor logs the error and then throws; with a renderer supplied it runs
to completion. -/
def newWboitPass (renderer : Option Unit) : CtorOutcome :=
  if ctorEarlyReturnsBeforeSuper renderer then
    { loggedError := true, threw := some JsErrorKind.referenceError }
  else
    { loggedError := false, threw := none }

/-- Width/height of a `WebGLRenderTarget`. -/
structure TargetSize where
  width : Rat
  height : Rat
deriving DecidableEq, Repr

/-- The pass fields relevant to sizing: the two persistent render targets,
plus the clear configuration (untouched by `setSize`). -/
structure PassSizing where
  baseTarget : TargetSize
  accumulationTarget : TargetSize
  clearColor : JSColorVal
  clearAlpha : Rat
deriving DecidableEq, Repr

/-- `setSize(width, height)`: both targets are set to exactly the given
dimensions (lines 296-299); no pixel-ratio scaling, nothing else touched. -/
def WboitPassSetSize (p : PassSizing) (width height : Rat) : PassSizing :=
  { p with baseTarget := { width := width, height := height }
           accumulationTarget := { width := width, height := height } }

/-- The constructor's target allocation size (lines 196-199):
`effectiveWidth = size.width * pixelRatio`, likewise for height; both
persistent targets are allocated at this drawing-buffer size. -/
def constructorTargetSize (cssWidth cssHeight pixelRatio : Rat) : TargetSize :=
  { width := cssWidth * pixelRatio, height := cssHeight * pixelRatio }

/-! ## Derived guard predicates -/

/-- The entry guard of `render`: `if (!scene || !scene.isScene) return;`. -/
def sceneInvalid (p : PassState) : Bool :=
  match p.scene with
  | none => true
  | some sc => !sc.isScene

/-- Whether `gatherMeshes` visits (does not skip) an object: its `material`
is truthy and its `visible` flag is set. -/
def visitsB (objs : Nat → ObjState) (o : Nat) : Bool :=
  ((objs o).material).isSome && (objs o).visible

/-! ## Concrete sample inputs (used by witnesses and counterexamples) -/

/-- A plain opaque material in its three.js defaults. -/
def plainMat : MatState :=
  { transparent := false, wboitEnabled := false, blending := NormalBlending,
    blendEquation := AddEquation, blendSrc := SrcAlphaFactor,
    blendDst := OneMinusSrcAlphaFactor, depthTest := true, depthWrite := true,
    renderStage := none, uniformsRenderStage := none }

/-- A simple transparent (non-WBOIT) material with `depthTest = true`,
`depthWrite = false` — depth flags that differ from each other. -/
def transMat : MatState :=
  { transparent := true, wboitEnabled := false, blending := NormalBlending,
    blendEquation := AddEquation, blendSrc := SrcAlphaFactor,
    blendDst := OneMinusSrcAlphaFactor, depthTest := true, depthWrite := false,
    renderStage := none, uniformsRenderStage := none }

/-- A WBOIT-capable material whose `renderStage` field currently holds the
falsy `Normal` stage (0.0) and which has no `renderStage` uniform. -/
def wboitFieldMat : MatState :=
  { transparent := true, wboitEnabled := true, blending := CustomBlending,
    blendEquation := AddEquation, blendSrc := OneFactor, blendDst := OneFactor,
    depthTest := true, depthWrite := false,
    renderStage := some WboitStages.Normal, uniformsRenderStage := none }

/-- A WBOIT-capable material delivering the stage through a
`uniforms["renderStage"]` entry. -/
def wboitUniformMat : MatState :=
  { transparent := true, wboitEnabled := true, blending := NormalBlending,
    blendEquation := AddEquation, blendSrc := SrcAlphaFactor,
    blendDst := OneMinusSrcAlphaFactor, depthTest := true, depthWrite := false,
    renderStage := none, uniformsRenderStage := some (toFixed1 WboitStages.Normal) }

/-- A visible single-material object over material id 0. -/
def visObj : ObjState := { visible := true, material := some [0] }

/-- An invisible object that nevertheless has a material. -/
def invisObj : ObjState := { visible := false, material := some [0] }

/-- World with one visible scene object (id 0) carrying `transMat`. -/
def transWorld : World :=
  { objs := fun _ => visObj, mats := fun _ => transMat, autoClear := true,
    rClearColor := JSColorVal.color 0 0 0, rClearAlpha := 1,
    renderTarget := none, sceneOverrideMaterial := none }

/-- Pass over a one-object scene, with a falsy `clearColor` (undefined). -/
def transPass : PassState :=
  { scene := some { isScene := true, objects := [0] },
    clearColor := JSColorVal.undef, clearAlpha := 0 }

/-- Pass whose `scene` is `null`. -/
def nullScenePass : PassState :=
  { scene := none, clearColor := JSColorVal.color 1 0 0, clearAlpha := 1 }

/-- Pass whose `scene` is an object with `isScene` false. -/
def notScenePass : PassState :=
  { scene := some { isScene := false, objects := [0] },
    clearColor := JSColorVal.color 1 0 0, clearAlpha := 1 }

/-- Pass with a truthy `clearColor`. -/
def clearColorPass : PassState :=
  { scene := some { isScene := true, objects := [0] },
    clearColor := JSColorVal.color 1 0 0, clearAlpha := 1/2 }

/-- Pass with `clearColor` set to the number 0 (black, falsy). -/
def zeroClearColorPass : PassState :=
  { scene := some { isScene := true, objects := [0] },
    clearColor := JSColorVal.num 0, clearAlpha := 1/2 }

/-- A probe context in which every candidate renders and reads back the fill
color exactly. -/
def ctxAllPass : TexType → GLReadback := fun t =>
  match t with
  | TexType.FloatType =>
    { framebufferComplete := true, pixels := { r := 1, g := 1, b := 1, a := 0 } }
  | TexType.HalfFloatType =>
    { framebufferComplete := true, pixels := { r := 15360, g := 15360, b := 15360, a := 0 } }
  | TexType.UnsignedByteType =>
    { framebufferComplete := true, pixels := { r := 255, g := 255, b := 255, a := 0 } }

/-- A probe context failing the float and half-float candidates (incomplete
framebuffer) but passing the 8-bit one. -/
def ctxByteOnly : TexType → GLReadback := fun t =>
  match t with
  | TexType.UnsignedByteType =>
    { framebufferComplete := true, pixels := { r := 255, g := 255, b := 255, a := 0 } }
  | _ =>
    { framebufferComplete := false, pixels := { r := 0, g := 0, b := 0, a := 0 } }

/-- A probe context in which no candidate passes the round-trip test. -/
def ctxNonePass : TexType → GLReadback := fun _ =>
  { framebufferComplete := false, pixels := { r := 0, g := 0, b := 0, a := 0 } }

/-- Sample sizing state for the `setSize` claims. -/
def samplePassSizing : PassSizing :=
  { baseTarget := { width := 8, height := 6 },
    accumulationTarget := { width := 8, height := 6 },
    clearColor := JSColorVal.undef, clearAlpha := 0 }

/-- Sample blend snapshot caches for material id 0, as gather would populate
them for a material in its three.js defaults. -/
def snapCacheB : List (Nat × Nat) := [(0, NormalBlending)]

/-- See `snapCacheB`. -/
def snapCacheE : List (Nat × Nat) := [(0, AddEquation)]

/-- See `snapCacheB`. -/
def snapCacheS : List (Nat × Nat) := [(0, SrcAlphaFactor)]

/-- See `snapCacheB`. -/
def snapCacheD : List (Nat × Nat) := [(0, OneMinusSrcAlphaFactor)]

/-! # Theorems

## Characterization of the classification flag loop -/

theorem foldFlagsAux_fst (mats : Nat → MatState) :
    ∀ (l : List Nat) (p : Bool × Bool),
      (foldFlagsAux mats p l).1 = (p.1 && allTransparent mats l) := by
  intro l
  induction l with
  | nil =>
    intro p
    show p.1 = (p.1 && List.all [] _)
    rw [List.all_nil, Bool.and_true]
  | cons i r ih =>
    intro p
    have h1 : foldFlagsAux mats p (i :: r)
        = foldFlagsAux mats (p.1 && (mats i).transparent,
            p.2 && (p.1 && (mats i).transparent) && (mats i).wboitEnabled) r := rfl
    rw [h1, ih]
    show ((p.1 && (mats i).transparent) && allTransparent mats r) = _
    rw [Bool.and_assoc]
    rfl

theorem foldFlagsAux_snd (mats : Nat → MatState) :
    ∀ (l : List Nat) (p : Bool × Bool),
      (foldFlagsAux mats p l).2 = (p.2 && wboitChain mats p.1 l) := by
  intro l
  induction l with
  | nil =>
    intro p
    show p.2 = (p.2 && true)
    rw [Bool.and_true]
  | cons i r ih =>
    intro p
    have h1 : foldFlagsAux mats p (i :: r)
        = foldFlagsAux mats (p.1 && (mats i).transparent,
            p.2 && (p.1 && (mats i).transparent) && (mats i).wboitEnabled) r := rfl
    rw [h1, ih]
    show ((p.2 && (p.1 && (mats i).transparent) && (mats i).wboitEnabled)
        && wboitChain mats (p.1 && (mats i).transparent) r) = _
    rw [wboitChain]
    simp only [Bool.and_assoc]

theorem wboitChain_true (mats : Nat → MatState) :
    ∀ l : List Nat, wboitChain mats true l = (allTransparent mats l && allWboitEnabled mats l) := by
  intro l
  induction l with
  | nil =>
    show true = (List.all [] _ && List.all [] _)
    rw [List.all_nil, List.all_nil, Bool.and_true]
  | cons i r ih =>
    show (((true && (mats i).transparent) && (mats i).wboitEnabled)
        && wboitChain mats (true && (mats i).transparent) r) = _
    rw [Bool.true_and]
    cases ht : (mats i).transparent with
    | false =>
      rw [Bool.false_and, Bool.false_and]
      show false = (List.all (i :: r) _ && _)
      rw [List.all_cons, ht, Bool.false_and, Bool.false_and]
    | true =>
      rw [Bool.true_and, ih]
      show ((mats i).wboitEnabled && (allTransparent mats r && allWboitEnabled mats r))
          = (List.all (i :: r) _ && List.all (i :: r) _)
      rw [List.all_cons, List.all_cons, ht, Bool.true_and]
      show _ = (allTransparent mats r && ((mats i).wboitEnabled && allWboitEnabled mats r))
      rw [Bool.and_left_comm]

theorem foldFlags_fst (mats : Nat → MatState) (l : List Nat) :
    (foldFlags mats l).1 = allTransparent mats l := by
  rw [foldFlags, foldFlagsAux_fst]
  exact Bool.true_and _

theorem foldFlags_snd (mats : Nat → MatState) (l : List Nat) :
    (foldFlags mats l).2 = (allTransparent mats l && allWboitEnabled mats l) := by
  rw [foldFlags, foldFlagsAux_snd]
  show (true && wboitChain mats true l) = _
  rw [Bool.true_and, wboitChain_true]

theorem all_congr_ids {l : List Nat} {f g : Nat → Bool}
    (h : ∀ i ∈ l, f i = g i) : l.all f = l.all g := by
  induction l with
  | nil => rfl
  | cons a r ih =>
    simp only [List.all_cons, h a (List.mem_cons_self a r)]
    rw [ih (fun i hi => h i (List.mem_cons_of_mem a hi))]

/-! ## Store helper lemmas -/

theorem updStore_self {α : Type} (s : Nat → α) (k : Nat) (v : α) :
    updStore s k v k = v := by
  simp [updStore]

theorem updStore_other {α : Type} (s : Nat → α) (k : Nat) (v : α) (j : Nat)
    (h : j ≠ k) : updStore s k v j = s j := by
  simp [updStore, h]

/-! ## C6: render is a no-op on an invalid scene -/

/-- C6: for every renderer state and write buffer, calling `render` when
`this.scene` is null/undefined or has `isScene` false returns immediately:
the world (renderer state, materials, object visibility) is returned
unchanged and the operation trace is empty, so zero render-target binds are
performed. -/
theorem render_noop_on_invalid_scene (p : PassState) (wb : Option TargetRef)
    (w : World) (h : sceneInvalid p = true) :
    WboitPassRender p wb w = (w, []) := by
  unfold sceneInvalid at h
  unfold WboitPassRender
  cases hs : p.scene with
  | none => rfl
  | some sc =>
    rw [hs] at h
    simp only at h
    have hb : sc.isScene = false := by
      cases hsc : sc.isScene with
      | false => rfl
      | true => rw [hsc] at h; exact absurd h (by decide)
    simp only [hb]
    rfl

/-- Witness for C6: concrete invalid-scene calls (scene `null` and
`isScene = false`) both return the world unchanged with an empty trace. -/
theorem render_noop_on_invalid_scene_witness :
    WboitPassRender nullScenePass none transWorld = (transWorld, []) ∧
    WboitPassRender notScenePass (some (TargetRef.external 7)) transWorld = (transWorld, []) :=
  ⟨render_noop_on_invalid_scene nullScenePass none transWorld rfl,
   render_noop_on_invalid_scene notScenePass (some (TargetRef.external 7)) transWorld rfl⟩

/-! ## C7: constructing without a renderer -/

/-- C7: `new WboitPass(null, ...)` logs the configuration error, but —
contrary to the claim that construction aborts without throwing — the early
`return console.error(...)` returns `undefined` from a derived-class
constructor before `super()` has run, which by ECMAScript semantics throws a
`ReferenceError`; supplying a renderer constructs normally. -/
theorem newWboitPass_missing_renderer_logs_and_throws :
    (newWboitPass none).loggedError = true ∧
    (newWboitPass none).threw = some JsErrorKind.referenceError ∧
    (newWboitPass (some ())).threw = none := by decide

/-! ## C9: setSize vs constructor sizing -/

/-- C9: `setSize(w, h)` sets both persistent targets to exactly `w` by `h`
and changes nothing else (no pixel-ratio scaling), while the constructor
allocates both targets at drawing-buffer size (CSS size times pixel ratio);
for a pixel ratio other than 1 (and a nonzero width) the two paths produce
different target sizes for the same logical dimensions. -/
theorem setSize_exact_constructor_scaled (p : PassSizing)
    (w h cssW cssH ratio : Rat) :
    (WboitPassSetSize p w h).baseTarget = { width := w, height := h } ∧
    (WboitPassSetSize p w h).accumulationTarget = { width := w, height := h } ∧
    (WboitPassSetSize p w h).clearColor = p.clearColor ∧
    (WboitPassSetSize p w h).clearAlpha = p.clearAlpha ∧
    constructorTargetSize cssW cssH ratio
      = { width := cssW * ratio, height := cssH * ratio } ∧
    (ratio ≠ 1 → cssW ≠ 0 →
      (constructorTargetSize cssW cssH ratio).width
        ≠ ((WboitPassSetSize p cssW cssH).baseTarget).width) := by
  refine ⟨rfl, rfl, rfl, rfl, rfl, ?_⟩
  intro hr hw he
  apply hr
  have h1 : cssW * ratio = cssW * 1 := by
    rw [mul_one]
    exact he
  exact mul_left_cancel₀ hw h1

/-- Witness for C9 at concrete sizes: `setSize(8, 6)` and a constructor
allocation at CSS 8x6 with pixel ratio 2. -/
theorem setSize_exact_constructor_scaled_witness :
    (WboitPassSetSize samplePassSizing 8 6).baseTarget = { width := 8, height := 6 } ∧
    (constructorTargetSize 8 6 2).width
      ≠ ((WboitPassSetSize samplePassSizing 8 6).baseTarget).width :=
  ⟨(setSize_exact_constructor_scaled samplePassSizing 8 6 8 6 2).1,
   (setSize_exact_constructor_scaled samplePassSizing 8 6 8 6 2).2.2.2.2.2
     (by norm_num) (by norm_num)⟩

/-! ## C5: the capability probe -/

/-- C5: the probe tries float, half-float, 8-bit in that fixed order and
selects the first candidate whose framebuffer-completeness plus fuzzy
colour-match test passes; if float and half-float fail it selects 8-bit
whether or not the 8-bit test passes (the last candidate is accepted
unconditionally). -/
theorem chooseTargetType_first_passing_or_last (ctx : TexType → GLReadback) :
    (probeCandidatePasses ctx TexType.FloatType 1 = true →
      chooseTargetType ctx = some TexType.FloatType) ∧
    (probeCandidatePasses ctx TexType.FloatType 1 = false →
      probeCandidatePasses ctx TexType.HalfFloatType 15360 = true →
      chooseTargetType ctx = some TexType.HalfFloatType) ∧
    (probeCandidatePasses ctx TexType.FloatType 1 = false →
      probeCandidatePasses ctx TexType.HalfFloatType 15360 = false →
      chooseTargetType ctx = some TexType.UnsignedByteType) := by
  refine ⟨?_, ?_, ?_⟩
  · intro h1
    simp [chooseTargetType, chooseLoop, targetTypes, targetDivisor, List.zip, h1]
  · intro h1 h2
    simp [chooseTargetType, chooseLoop, targetTypes, targetDivisor, List.zip, h1, h2]
  · intro h1 h2
    simp [chooseTargetType, chooseLoop, targetTypes, targetDivisor, List.zip, h1, h2]

/-- Witness for C5: a context passing the float round-trip yields float, a
context failing float and half-float but passing 8-bit yields 8-bit, and a
context failing everything still yields 8-bit. -/
theorem chooseTargetType_first_passing_or_last_witness :
    chooseTargetType ctxAllPass = some TexType.FloatType ∧
    chooseTargetType ctxByteOnly = some TexType.UnsignedByteType ∧
    chooseTargetType ctxNonePass = some TexType.UnsignedByteType :=
  ⟨(chooseTargetType_first_passing_or_last ctxAllPass).1
     (by norm_num [probeCandidatePasses, fuzzyEqual, ctxAllPass, testR, testG, testB, testA]),
   (chooseTargetType_first_passing_or_last ctxByteOnly).2.2
     (by norm_num [probeCandidatePasses, fuzzyEqual, ctxByteOnly, testR, testG, testB, testA])
     (by norm_num [probeCandidatePasses, fuzzyEqual, ctxByteOnly, testR, testG, testB, testA]),
   (chooseTargetType_first_passing_or_last ctxNonePass).2.2
     (by norm_num [probeCandidatePasses, fuzzyEqual, ctxNonePass, testR, testG, testB, testA])
     (by norm_num [probeCandidatePasses, fuzzyEqual, ctxNonePass, testR, testG, testB, testA])⟩

/-! ## C10: the optional initial clear of the write buffer -/

/-- C10: on a valid scene the trace of `render` is the three-operation
initial clear of the write buffer (bind, set clear color to `this.clearColor`
with `this.clearAlpha`, clear) exactly when `this.clearColor` is truthy,
followed by the fixed main sequence — which never mentions the pass's clear
configuration; for a falsy `clearColor` (undefined, null, or the number 0)
no initial clear happens and the configured `clearAlpha` is never applied. -/
theorem render_initial_clear_iff_truthy (p : PassState) (wb : Option TargetRef)
    (w : World) (sc : SceneData) (hs : p.scene = some sc)
    (hv : sc.isScene = true) :
    (WboitPassRender p wb w).2 =
      (if truthy p.clearColor then
        [ROp.setRenderTarget wb,
         ROp.setClearColor p.clearColor p.clearAlpha,
         ROp.clearColor]
       else []) ++ wboitMainOps wb w.renderTarget w.rClearColor w.rClearAlpha := by
  unfold WboitPassRender
  rw [hs]
  simp only [hv]
  rfl

/-- Witness for C10: with a truthy `clearColor` the trace starts with the
bind/set/clear triple; with `clearColor` undefined or the number 0 it starts
directly with the opaque stage. -/
theorem render_initial_clear_iff_truthy_witness :
    (WboitPassRender clearColorPass none transWorld).2 =
      [ROp.setRenderTarget none,
       ROp.setClearColor (JSColorVal.color 1 0 0) (1/2),
       ROp.clearColor] ++ wboitMainOps none none (JSColorVal.color 0 0 0) 1 ∧
    (WboitPassRender transPass none transWorld).2 =
      wboitMainOps none none (JSColorVal.color 0 0 0) 1 ∧
    (WboitPassRender zeroClearColorPass none transWorld).2 =
      wboitMainOps none none (JSColorVal.color 0 0 0) 1 := by
  refine ⟨?_, ?_, ?_⟩
  · have h := render_initial_clear_iff_truthy clearColorPass none transWorld
      { isScene := true, objects := [0] } rfl rfl
    rw [h]
    rfl
  · have h := render_initial_clear_iff_truthy transPass none transWorld
      { isScene := true, objects := [0] } rfl rfl
    rw [h]
    rfl
  · have h := render_initial_clear_iff_truthy zeroClearColorPass none transWorld
      { isScene := true, objects := [0] } rfl rfl
    rw [h]
    rfl

/-! ## C1: state restoration after render -/

/-- C1: the claim that `render` leaves every material's `depthTest` and
`depthWrite` at their pre-call values fails: `resetVisible` (lines 391-392)
writes `depthWrite` from the depth-*test* cache and `depthTest` from the
depth-*write* cache, so a single `render` call swaps the two flags on any
touched material whose flags differ.  On the one-object scene of `transWorld`
(material: `depthTest = true`, `depthWrite = false`) one call ends with
`depthTest = false`, `depthWrite = true`, even though the object's visibility
and the material's blend fields are restored correctly. -/
theorem render_swaps_depth_flags :
    transMat.depthTest = true ∧ transMat.depthWrite = false ∧
    ((WboitPassRender transPass none transWorld).1.mats 0).depthTest = false ∧
    ((WboitPassRender transPass none transWorld).1.mats 0).depthWrite = true ∧
    ((WboitPassRender transPass none transWorld).1.objs 0).visible = true ∧
    ((WboitPassRender transPass none transWorld).1.mats 0).blending = transMat.blending ∧
    ((WboitPassRender transPass none transWorld).1.mats 0).blendSrc = transMat.blendSrc := by
  decide

/-! ## Stage configurator lemmas -/

theorem stageChannel_keeps_guard (stage : Nat) (m : MatState) :
    (stageChannel stage m).wboitEnabled = m.wboitEnabled ∧
    (stageChannel stage m).transparent = m.transparent := by
  unfold stageChannel
  split
  · exact ⟨rfl, rfl⟩
  · split
    · exact ⟨rfl, rfl⟩
    · exact ⟨rfl, rfl⟩

theorem applyStageSwitch_keeps (stage : Nat) (bc bec bsc bdc : List (Nat × Nat))
    (i : Nat) (m1 : MatState) :
    (applyStageSwitch stage bc bec bsc bdc i m1).wboitEnabled = m1.wboitEnabled ∧
    (applyStageSwitch stage bc bec bsc bdc i m1).transparent = m1.transparent ∧
    (applyStageSwitch stage bc bec bsc bdc i m1).renderStage = m1.renderStage ∧
    (applyStageSwitch stage bc bec bsc bdc i m1).uniformsRenderStage = m1.uniformsRenderStage := by
  unfold applyStageSwitch
  split
  · exact ⟨rfl, rfl, rfl, rfl⟩
  · split
    · exact ⟨rfl, rfl, rfl, rfl⟩
    · exact ⟨rfl, rfl, rfl, rfl⟩

theorem applyStageToMat_keeps_guard (stage : Nat) (bc bec bsc bdc : List (Nat × Nat))
    (i : Nat) (m : MatState) :
    (applyStageToMat stage bc bec bsc bdc i m).wboitEnabled = m.wboitEnabled ∧
    (applyStageToMat stage bc bec bsc bdc i m).transparent = m.transparent := by
  unfold applyStageToMat
  split
  · constructor
    · rw [(applyStageSwitch_keeps stage bc bec bsc bdc i (stageChannel stage m)).1]
      exact (stageChannel_keeps_guard stage m).1
    · rw [(applyStageSwitch_keeps stage bc bec bsc bdc i (stageChannel stage m)).2.1]
      exact (stageChannel_keeps_guard stage m).2
  · exact ⟨rfl, rfl⟩

theorem applyStageToMat_untouched (stage : Nat) (bc bec bsc bdc : List (Nat × Nat))
    (i : Nat) (m : MatState) (h : (m.wboitEnabled && m.transparent) = false) :
    applyStageToMat stage bc bec bsc bdc i m = m := by
  unfold applyStageToMat
  rw [h]
  rfl

theorem applyStageList_notMem (stage : Nat) (bc bec bsc bdc : List (Nat × Nat)) :
    ∀ (l : List Nat) (ms : Nat → MatState) (j : Nat), j ∉ l →
      applyStageList stage bc bec bsc bdc l ms j = ms j := by
  intro l
  induction l with
  | nil => intro ms j _; rfl
  | cons i r ih =>
    intro ms j hj
    have hji : j ≠ i := fun he => hj (he ▸ List.mem_cons_self i r)
    have hjr : j ∉ r := fun hr => hj (List.mem_cons_of_mem i hr)
    show applyStageList stage bc bec bsc bdc r
      (updStore ms i (applyStageToMat stage bc bec bsc bdc i (ms i))) j = ms j
    rw [ih _ j hjr, updStore_other _ _ _ _ hji]

theorem applyStageList_keeps_guard (stage : Nat) (bc bec bsc bdc : List (Nat × Nat)) :
    ∀ (l : List Nat) (ms : Nat → MatState) (j : Nat),
      (applyStageList stage bc bec bsc bdc l ms j).wboitEnabled = (ms j).wboitEnabled ∧
      (applyStageList stage bc bec bsc bdc l ms j).transparent = (ms j).transparent := by
  intro l
  induction l with
  | nil => intro ms j; exact ⟨rfl, rfl⟩
  | cons i r ih =>
    intro ms j
    show (applyStageList stage bc bec bsc bdc r
        (updStore ms i (applyStageToMat stage bc bec bsc bdc i (ms i))) j).wboitEnabled
          = (ms j).wboitEnabled ∧
      (applyStageList stage bc bec bsc bdc r
        (updStore ms i (applyStageToMat stage bc bec bsc bdc i (ms i))) j).transparent
          = (ms j).transparent
    rcases ih (updStore ms i (applyStageToMat stage bc bec bsc bdc i (ms i))) j with ⟨h1, h2⟩
    rw [h1, h2]
    by_cases hji : j = i
    · subst hji
      rw [updStore_self]
      exact applyStageToMat_keeps_guard stage bc bec bsc bdc j (ms j)
    · rw [updStore_other _ _ _ _ hji]
      exact ⟨rfl, rfl⟩

theorem applyStageList_preserves (stage : Nat) (bc bec bsc bdc : List (Nat × Nat))
    (P : Nat → MatState → Prop)
    (hP : ∀ k m, m.wboitEnabled = true → m.transparent = true →
      P k (applyStageToMat stage bc bec bsc bdc k m)) :
    ∀ (l : List Nat) (ms : Nat → MatState) (j : Nat),
      (ms j).wboitEnabled = true → (ms j).transparent = true →
      P j (ms j) → P j (applyStageList stage bc bec bsc bdc l ms j) := by
  intro l
  induction l with
  | nil => intro ms j _ _ hp; exact hp
  | cons i r ih =>
    intro ms j hw ht hp
    show P j (applyStageList stage bc bec bsc bdc r
      (updStore ms i (applyStageToMat stage bc bec bsc bdc i (ms i))) j)
    by_cases hji : j = i
    · subst hji
      apply ih
      · rw [updStore_self,
          (applyStageToMat_keeps_guard stage bc bec bsc bdc j (ms j)).1]
        exact hw
      · rw [updStore_self,
          (applyStageToMat_keeps_guard stage bc bec bsc bdc j (ms j)).2]
        exact ht
      · rw [updStore_self]
        exact hP j (ms j) hw ht
    · apply ih
      · rw [updStore_other _ _ _ _ hji]; exact hw
      · rw [updStore_other _ _ _ _ hji]; exact ht
      · rw [updStore_other _ _ _ _ hji]; exact hp

theorem applyStageList_establishes (stage : Nat) (bc bec bsc bdc : List (Nat × Nat))
    (P : Nat → MatState → Prop)
    (hP : ∀ k m, m.wboitEnabled = true → m.transparent = true →
      P k (applyStageToMat stage bc bec bsc bdc k m)) :
    ∀ (l : List Nat) (ms : Nat → MatState) (j : Nat), j ∈ l →
      (ms j).wboitEnabled = true → (ms j).transparent = true →
      P j (applyStageList stage bc bec bsc bdc l ms j) := by
  intro l
  induction l with
  | nil => intro ms j hj; exact absurd hj (List.not_mem_nil j)
  | cons i r ih =>
    intro ms j hj hw ht
    show P j (applyStageList stage bc bec bsc bdc r
      (updStore ms i (applyStageToMat stage bc bec bsc bdc i (ms i))) j)
    by_cases hji : j = i
    · subst hji
      apply applyStageList_preserves stage bc bec bsc bdc P hP r
      · rw [updStore_self,
          (applyStageToMat_keeps_guard stage bc bec bsc bdc j (ms j)).1]
        exact hw
      · rw [updStore_self,
          (applyStageToMat_keeps_guard stage bc bec bsc bdc j (ms j)).2]
        exact ht
      · rw [updStore_self]
        exact hP j (ms j) hw ht
    · rcases List.mem_cons.mp hj with he | hr
      · exact absurd he hji
      · apply ih _ j hr
        · rw [updStore_other _ _ _ _ hji]; exact hw
        · rw [updStore_other _ _ _ _ hji]; exact ht

theorem prepare_keeps_guard (stage : Nat) (bc bec bsc bdc : List (Nat × Nat))
    (objs : Nat → ObjState) :
    ∀ (meshes : List Nat) (ms : Nat → MatState) (j : Nat),
      (prepareWboitBlending stage meshes objs bc bec bsc bdc ms j).wboitEnabled
        = (ms j).wboitEnabled ∧
      (prepareWboitBlending stage meshes objs bc bec bsc bdc ms j).transparent
        = (ms j).transparent := by
  intro meshes
  induction meshes with
  | nil => intro ms j; exact ⟨rfl, rfl⟩
  | cons o r ih =>
    intro ms j
    show (prepareWboitBlending stage r objs bc bec bsc bdc
        (applyStageList stage bc bec bsc bdc (matListOf objs o) ms) j).wboitEnabled = _ ∧
      (prepareWboitBlending stage r objs bc bec bsc bdc
        (applyStageList stage bc bec bsc bdc (matListOf objs o) ms) j).transparent = _
    rcases ih (applyStageList stage bc bec bsc bdc (matListOf objs o) ms) j with ⟨h1, h2⟩
    rw [h1, h2]
    exact applyStageList_keeps_guard stage bc bec bsc bdc (matListOf objs o) ms j

theorem prepare_preserves (stage : Nat) (bc bec bsc bdc : List (Nat × Nat))
    (objs : Nat → ObjState) (P : Nat → MatState → Prop)
    (hP : ∀ k m, m.wboitEnabled = true → m.transparent = true →
      P k (applyStageToMat stage bc bec bsc bdc k m)) :
    ∀ (meshes : List Nat) (ms : Nat → MatState) (j : Nat),
      (ms j).wboitEnabled = true → (ms j).transparent = true →
      P j (ms j) → P j (prepareWboitBlending stage meshes objs bc bec bsc bdc ms j) := by
  intro meshes
  induction meshes with
  | nil => intro ms j _ _ hp; exact hp
  | cons o r ih =>
    intro ms j hw ht hp
    show P j (prepareWboitBlending stage r objs bc bec bsc bdc
      (applyStageList stage bc bec bsc bdc (matListOf objs o) ms) j)
    apply ih
    · rw [(applyStageList_keeps_guard stage bc bec bsc bdc (matListOf objs o) ms j).1]
      exact hw
    · rw [(applyStageList_keeps_guard stage bc bec bsc bdc (matListOf objs o) ms j).2]
      exact ht
    · exact applyStageList_preserves stage bc bec bsc bdc P hP (matListOf objs o) ms j hw ht hp

theorem prepare_establishes (stage : Nat) (bc bec bsc bdc : List (Nat × Nat))
    (objs : Nat → ObjState) (P : Nat → MatState → Prop)
    (hP : ∀ k m, m.wboitEnabled = true → m.transparent = true →
      P k (applyStageToMat stage bc bec bsc bdc k m)) :
    ∀ (meshes : List Nat) (ms : Nat → MatState) (o j : Nat),
      o ∈ meshes → j ∈ matListOf objs o →
      (ms j).wboitEnabled = true → (ms j).transparent = true →
      P j (prepareWboitBlending stage meshes objs bc bec bsc bdc ms j) := by
  intro meshes
  induction meshes with
  | nil => intro ms o j ho; exact absurd ho (List.not_mem_nil o)
  | cons o1 r ih =>
    intro ms o j ho hj hw ht
    show P j (prepareWboitBlending stage r objs bc bec bsc bdc
      (applyStageList stage bc bec bsc bdc (matListOf objs o1) ms) j)
    rcases List.mem_cons.mp ho with he | hr
    · subst he
      apply prepare_preserves stage bc bec bsc bdc objs P hP r
      · rw [(applyStageList_keeps_guard stage bc bec bsc bdc (matListOf objs o) ms j).1]
        exact hw
      · rw [(applyStageList_keeps_guard stage bc bec bsc bdc (matListOf objs o) ms j).2]
        exact ht
      · exact applyStageList_establishes stage bc bec bsc bdc P hP (matListOf objs o) ms j hj hw ht
    · apply ih _ o j hr hj
      · rw [(applyStageList_keeps_guard stage bc bec bsc bdc (matListOf objs o1) ms j).1]
        exact hw
      · rw [(applyStageList_keeps_guard stage bc bec bsc bdc (matListOf objs o1) ms j).2]
        exact ht

/-! ## Per-stage effect of the configurator on one guarded material -/

theorem applyStageToMat_acc (bc bec bsc bdc : List (Nat × Nat)) (k : Nat) (m : MatState)
    (hw : m.wboitEnabled = true) (ht : m.transparent = true) :
    (applyStageToMat WboitStages.Acummulation bc bec bsc bdc k m).blendSrc = OneFactor ∧
    (applyStageToMat WboitStages.Acummulation bc bec bsc bdc k m).blendDst = OneFactor ∧
    (applyStageToMat WboitStages.Acummulation bc bec bsc bdc k m).depthWrite = false ∧
    (applyStageToMat WboitStages.Acummulation bc bec bsc bdc k m).depthTest = true := by
  have hg : (m.wboitEnabled && m.transparent) = true := by rw [hw, ht]; rfl
  unfold applyStageToMat
  rw [if_pos hg]
  unfold applyStageSwitch
  rw [if_pos rfl]
  exact ⟨rfl, rfl, rfl, rfl⟩

theorem applyStageToMat_rev (bc bec bsc bdc : List (Nat × Nat)) (k : Nat) (m : MatState)
    (hw : m.wboitEnabled = true) (ht : m.transparent = true) :
    (applyStageToMat WboitStages.Revealage bc bec bsc bdc k m).blendSrc = ZeroFactor ∧
    (applyStageToMat WboitStages.Revealage bc bec bsc bdc k m).blendDst = OneMinusSrcAlphaFactor ∧
    (applyStageToMat WboitStages.Revealage bc bec bsc bdc k m).depthWrite = false ∧
    (applyStageToMat WboitStages.Revealage bc bec bsc bdc k m).depthTest = true := by
  have hg : (m.wboitEnabled && m.transparent) = true := by rw [hw, ht]; rfl
  unfold applyStageToMat
  rw [if_pos hg]
  unfold applyStageSwitch
  rw [if_neg (by decide), if_pos rfl]
  exact ⟨rfl, rfl, rfl, rfl⟩

theorem applyStageToMat_norm (bc bec bsc bdc : List (Nat × Nat)) (k : Nat) (m : MatState)
    (hw : m.wboitEnabled = true) (ht : m.transparent = true) :
    (applyStageToMat WboitStages.Normal bc bec bsc bdc k m).blending = mapGetNat bc k ∧
    (applyStageToMat WboitStages.Normal bc bec bsc bdc k m).blendEquation = mapGetNat bec k ∧
    (applyStageToMat WboitStages.Normal bc bec bsc bdc k m).blendSrc = mapGetNat bsc k ∧
    (applyStageToMat WboitStages.Normal bc bec bsc bdc k m).blendDst = mapGetNat bdc k := by
  have hg : (m.wboitEnabled && m.transparent) = true := by rw [hw, ht]; rfl
  unfold applyStageToMat
  rw [if_pos hg]
  unfold applyStageSwitch
  rw [if_neg (by decide), if_neg (by decide)]
  exact ⟨rfl, rfl, rfl, rfl⟩

/-! ## C2: the stage blend table -/

/-- C2: for every material of a mesh in the WBOIT group with
`wboitEnabled == true` and `transparent == true`, after
`prepareWboitBlending(Accumulation)` its blend src/dst are ONE/ONE with
`depthWrite` false and `depthTest` true; after `Revealage` they are
ZERO/ONE_MINUS_SRC_ALPHA with `depthWrite` false and `depthTest` true; and
after `Normal` the blending, blend equation and blend src/dst equal the
pre-pass snapshot values held for it in the blend caches. -/
theorem prepareWboitBlending_stage_table
    (wboitMeshes : List Nat) (objs : Nat → ObjState)
    (bc bec bsc bdc : List (Nat × Nat)) (mats : Nat → MatState) (o i : Nat)
    (ho : o ∈ wboitMeshes) (hi : i ∈ matListOf objs o)
    (hw : (mats i).wboitEnabled = true) (ht : (mats i).transparent = true)
    (b e s d : Nat)
    (hb : lookupId bc i = some b) (heq : lookupId bec i = some e)
    (hsr : lookupId bsc i = some s) (hdt : lookupId bdc i = some d) :
    ((prepareWboitBlending WboitStages.Acummulation wboitMeshes objs bc bec bsc bdc mats i).blendSrc = OneFactor ∧
     (prepareWboitBlending WboitStages.Acummulation wboitMeshes objs bc bec bsc bdc mats i).blendDst = OneFactor ∧
     (prepareWboitBlending WboitStages.Acummulation wboitMeshes objs bc bec bsc bdc mats i).depthWrite = false ∧
     (prepareWboitBlending WboitStages.Acummulation wboitMeshes objs bc bec bsc bdc mats i).depthTest = true) ∧
    ((prepareWboitBlending WboitStages.Revealage wboitMeshes objs bc bec bsc bdc mats i).blendSrc = ZeroFactor ∧
     (prepareWboitBlending WboitStages.Revealage wboitMeshes objs bc bec bsc bdc mats i).blendDst = OneMinusSrcAlphaFactor ∧
     (prepareWboitBlending WboitStages.Revealage wboitMeshes objs bc bec bsc bdc mats i).depthWrite = false ∧
     (prepareWboitBlending WboitStages.Revealage wboitMeshes objs bc bec bsc bdc mats i).depthTest = true) ∧
    ((prepareWboitBlending WboitStages.Normal wboitMeshes objs bc bec bsc bdc mats i).blending = b ∧
     (prepareWboitBlending WboitStages.Normal wboitMeshes objs bc bec bsc bdc mats i).blendEquation = e ∧
     (prepareWboitBlending WboitStages.Normal wboitMeshes objs bc bec bsc bdc mats i).blendSrc = s ∧
     (prepareWboitBlending WboitStages.Normal wboitMeshes objs bc bec bsc bdc mats i).blendDst = d) := by
  refine ⟨?_, ?_, ?_⟩
  · exact prepare_establishes WboitStages.Acummulation bc bec bsc bdc objs
      (fun k m => m.blendSrc = OneFactor ∧ m.blendDst = OneFactor ∧
        m.depthWrite = false ∧ m.depthTest = true)
      (fun k m hw2 ht2 => applyStageToMat_acc bc bec bsc bdc k m hw2 ht2)
      wboitMeshes mats o i ho hi hw ht
  · exact prepare_establishes WboitStages.Revealage bc bec bsc bdc objs
      (fun k m => m.blendSrc = ZeroFactor ∧ m.blendDst = OneMinusSrcAlphaFactor ∧
        m.depthWrite = false ∧ m.depthTest = true)
      (fun k m hw2 ht2 => applyStageToMat_rev bc bec bsc bdc k m hw2 ht2)
      wboitMeshes mats o i ho hi hw ht
  · have h := prepare_establishes WboitStages.Normal bc bec bsc bdc objs
      (fun k m => m.blending = mapGetNat bc k ∧ m.blendEquation = mapGetNat bec k ∧
        m.blendSrc = mapGetNat bsc k ∧ m.blendDst = mapGetNat bdc k)
      (fun k m hw2 ht2 => applyStageToMat_norm bc bec bsc bdc k m hw2 ht2)
      wboitMeshes mats o i ho hi hw ht
    rcases h with ⟨h1, h2, h3, h4⟩
    refine ⟨?_, ?_, ?_, ?_⟩
    · rw [h1, mapGetNat, hb]; rfl
    · rw [h2, mapGetNat, heq]; rfl
    · rw [h3, mapGetNat, hsr]; rfl
    · rw [h4, mapGetNat, hdt]; rfl

/-- Witness for C2 on a concrete one-mesh WBOIT group: material 0 carries a
WBOIT material, the caches hold its defaults, and the three stages produce
the claimed blend/depth values. -/
theorem prepareWboitBlending_stage_table_witness :
    ((prepareWboitBlending WboitStages.Acummulation [0] (fun _ => visObj)
        snapCacheB snapCacheE snapCacheS snapCacheD (fun _ => wboitUniformMat) 0).blendSrc = OneFactor ∧
     (prepareWboitBlending WboitStages.Acummulation [0] (fun _ => visObj)
        snapCacheB snapCacheE snapCacheS snapCacheD (fun _ => wboitUniformMat) 0).blendDst = OneFactor ∧
     (prepareWboitBlending WboitStages.Acummulation [0] (fun _ => visObj)
        snapCacheB snapCacheE snapCacheS snapCacheD (fun _ => wboitUniformMat) 0).depthWrite = false ∧
     (prepareWboitBlending WboitStages.Acummulation [0] (fun _ => visObj)
        snapCacheB snapCacheE snapCacheS snapCacheD (fun _ => wboitUniformMat) 0).depthTest = true) ∧
    ((prepareWboitBlending WboitStages.Revealage [0] (fun _ => visObj)
        snapCacheB snapCacheE snapCacheS snapCacheD (fun _ => wboitUniformMat) 0).blendSrc = ZeroFactor ∧
     (prepareWboitBlending WboitStages.Revealage [0] (fun _ => visObj)
        snapCacheB snapCacheE snapCacheS snapCacheD (fun _ => wboitUniformMat) 0).blendDst = OneMinusSrcAlphaFactor ∧
     (prepareWboitBlending WboitStages.Revealage [0] (fun _ => visObj)
        snapCacheB snapCacheE snapCacheS snapCacheD (fun _ => wboitUniformMat) 0).depthWrite = false ∧
     (prepareWboitBlending WboitStages.Revealage [0] (fun _ => visObj)
        snapCacheB snapCacheE snapCacheS snapCacheD (fun _ => wboitUniformMat) 0).depthTest = true) ∧
    ((prepareWboitBlending WboitStages.Normal [0] (fun _ => visObj)
        snapCacheB snapCacheE snapCacheS snapCacheD (fun _ => wboitUniformMat) 0).blending = NormalBlending ∧
     (prepareWboitBlending WboitStages.Normal [0] (fun _ => visObj)
        snapCacheB snapCacheE snapCacheS snapCacheD (fun _ => wboitUniformMat) 0).blendEquation = AddEquation ∧
     (prepareWboitBlending WboitStages.Normal [0] (fun _ => visObj)
        snapCacheB snapCacheE snapCacheS snapCacheD (fun _ => wboitUniformMat) 0).blendSrc = SrcAlphaFactor ∧
     (prepareWboitBlending WboitStages.Normal [0] (fun _ => visObj)
        snapCacheB snapCacheE snapCacheS snapCacheD (fun _ => wboitUniformMat) 0).blendDst = OneMinusSrcAlphaFactor) :=
  prepareWboitBlending_stage_table [0] (fun _ => visObj)
    snapCacheB snapCacheE snapCacheS snapCacheD (fun _ => wboitUniformMat) 0 0
    (by decide) (by decide) rfl rfl
    NormalBlending AddEquation SrcAlphaFactor OneMinusSrcAlphaFactor rfl rfl rfl rfl

/-! ## C8: delivery of the stage channel -/

theorem stageChannel_truthy (stage : Nat) (m : MatState)
    (h : truthyNum m.renderStage = true) :
    (stageChannel stage m).renderStage = some stage ∧
    (stageChannel stage m).uniformsRenderStage = m.uniformsRenderStage := by
  unfold stageChannel
  rw [if_pos h]
  exact ⟨rfl, rfl⟩

theorem stageChannel_uniform (stage : Nat) (m : MatState)
    (h1 : truthyNum m.renderStage = false)
    (h2 : (m.uniformsRenderStage).isSome = true) :
    (stageChannel stage m).uniformsRenderStage = some (toFixed1 stage) ∧
    (stageChannel stage m).renderStage = m.renderStage := by
  unfold stageChannel
  rw [h1, if_neg (by decide), if_pos h2]
  exact ⟨rfl, rfl⟩

theorem stageChannel_nochannel (stage : Nat) (m : MatState)
    (h1 : truthyNum m.renderStage = false)
    (h2 : m.uniformsRenderStage = none) :
    stageChannel stage m = m := by
  unfold stageChannel
  rw [h1, if_neg (by decide), h2, if_neg (by decide)]

/-- C8 counterexample: a WBOIT-group material satisfying the precondition
whose `renderStage` field holds the falsy stage `Normal` (0.0) is not updated
by the configurator when invoked with stage `Accumulation` — the field check
`if (materials[i].renderStage)` tests the value's truthiness, not the field's
presence — refuting the claim that a material possessing the `renderStage`
field always receives the new stage. -/
theorem prepare_stage_channel_counterexample :
    wboitFieldMat.wboitEnabled = true ∧ wboitFieldMat.transparent = true ∧
    wboitFieldMat.renderStage = some WboitStages.Normal ∧
    wboitFieldMat.uniformsRenderStage = none ∧
    (prepareWboitBlending WboitStages.Acummulation [0] (fun _ => visObj) [] [] [] []
      (fun _ => wboitFieldMat) 0).renderStage = some WboitStages.Normal ∧
    some WboitStages.Normal ≠ some WboitStages.Acummulation := by
  decide

/-- C8 amended: for a WBOIT-group material satisfying the precondition, the
configurator updates the stage channel as follows: when the `renderStage`
field holds a truthy (nonzero) value the field is set to the stage; otherwise
when a `uniforms["renderStage"]` entry exists its value is set to the
stringified stage `stage.toFixed(1)` (and the field is left as is); otherwise
— in particular when the field is present but holds a falsy value such as
`Normal` (0.0) and no uniform exists — no stage update is delivered at all.
Materials failing the `wboitEnabled`/`transparent` precondition are left
entirely untouched. -/
theorem prepare_stage_channel_delivery
    (stage : Nat) (bc bec bsc bdc : List (Nat × Nat)) (objs : Nat → ObjState)
    (o i : Nat) (mats : Nat → MatState) (hm : matListOf objs o = [i]) :
    ((mats i).wboitEnabled = true → (mats i).transparent = true →
      ((truthyNum (mats i).renderStage = true →
        (prepareWboitBlending stage [o] objs bc bec bsc bdc mats i).renderStage = some stage) ∧
       (truthyNum (mats i).renderStage = false →
        ((mats i).uniformsRenderStage).isSome = true →
        (prepareWboitBlending stage [o] objs bc bec bsc bdc mats i).uniformsRenderStage
          = some (toFixed1 stage) ∧
        (prepareWboitBlending stage [o] objs bc bec bsc bdc mats i).renderStage
          = (mats i).renderStage) ∧
       (truthyNum (mats i).renderStage = false →
        (mats i).uniformsRenderStage = none →
        (prepareWboitBlending stage [o] objs bc bec bsc bdc mats i).renderStage
          = (mats i).renderStage ∧
        (prepareWboitBlending stage [o] objs bc bec bsc bdc mats i).uniformsRenderStage
          = none))) ∧
    (((mats i).wboitEnabled && (mats i).transparent) = false →
      prepareWboitBlending stage [o] objs bc bec bsc bdc mats i = mats i) := by
  have hred : prepareWboitBlending stage [o] objs bc bec bsc bdc mats i
      = applyStageToMat stage bc bec bsc bdc i (mats i) := by
    show applyStageList stage bc bec bsc bdc (matListOf objs o) mats i = _
    rw [hm]
    exact updStore_self mats i _
  rw [hred]
  constructor
  · intro hw ht
    have hg : ((mats i).wboitEnabled && (mats i).transparent) = true := by
      rw [hw, ht]; rfl
    have happ : applyStageToMat stage bc bec bsc bdc i (mats i)
        = applyStageSwitch stage bc bec bsc bdc i (stageChannel stage (mats i)) := by
      unfold applyStageToMat
      rw [if_pos hg]
    rw [happ]
    rcases applyStageSwitch_keeps stage bc bec bsc bdc i (stageChannel stage (mats i))
      with ⟨_, _, hks, hku⟩
    refine ⟨?_, ?_, ?_⟩
    · intro htr
      rw [hks]
      exact (stageChannel_truthy stage (mats i) htr).1
    · intro htr hu
      constructor
      · rw [hku]
        exact (stageChannel_uniform stage (mats i) htr hu).1
      · rw [hks]
        exact (stageChannel_uniform stage (mats i) htr hu).2
    · intro htr hu
      constructor
      · rw [hks, stageChannel_nochannel stage (mats i) htr hu]
      · rw [hku, stageChannel_nochannel stage (mats i) htr hu]
        exact hu
  · intro hg
    exact applyStageToMat_untouched stage bc bec bsc bdc i (mats i) hg

/-- Witness for the amended C8: the uniform-channel material receives the
stringified Accumulation stage; the falsy-field material's `renderStage` is
left unchanged. -/
theorem prepare_stage_channel_delivery_witness :
    (prepareWboitBlending WboitStages.Acummulation [0] (fun _ => visObj) [] [] [] []
        (fun _ => wboitUniformMat) 0).uniformsRenderStage
      = some (toFixed1 WboitStages.Acummulation) ∧
    (prepareWboitBlending WboitStages.Acummulation [0] (fun _ => visObj) [] [] [] []
        (fun _ => wboitFieldMat) 0).renderStage = wboitFieldMat.renderStage :=
  ⟨(((prepare_stage_channel_delivery WboitStages.Acummulation [] [] [] []
      (fun _ => visObj) 0 0 (fun _ => wboitUniformMat) rfl).1 rfl rfl).2.1 rfl rfl).1,
   (((prepare_stage_channel_delivery WboitStages.Acummulation [] [] [] []
      (fun _ => visObj) 0 0 (fun _ => wboitFieldMat) rfl).1 rfl rfl).2.2 rfl rfl).1⟩

/-! ## Classification membership lemmas (gatherMeshes) -/

theorem setDepthAll_stable :
    ∀ (l : List Nat) (mats : Nat → MatState) (tv wv : Bool) (i : Nat),
      ((setDepthAll mats l tv wv) i).transparent = (mats i).transparent ∧
      ((setDepthAll mats l tv wv) i).wboitEnabled = (mats i).wboitEnabled := by
  intro l
  induction l with
  | nil => intro mats tv wv i; exact ⟨rfl, rfl⟩
  | cons a r ih =>
    intro mats tv wv i
    show ((setDepthAll (updStore mats a
        { mats a with depthTest := tv, depthWrite := wv }) r tv wv) i).transparent
        = (mats i).transparent ∧
      ((setDepthAll (updStore mats a
        { mats a with depthTest := tv, depthWrite := wv }) r tv wv) i).wboitEnabled
        = (mats i).wboitEnabled
    rcases ih (updStore mats a { mats a with depthTest := tv, depthWrite := wv }) tv wv i
      with ⟨h1, h2⟩
    rw [h1, h2]
    by_cases hia : i = a
    · subst hia
      rw [updStore_self]
      exact ⟨rfl, rfl⟩
    · rw [updStore_other _ _ _ _ hia]
      exact ⟨rfl, rfl⟩

theorem classify_stable (gs : GatherOut) (oId : Nat) (l : List Nat) (v : Bool) (i : Nat) :
    ((gatherClassify gs oId l v).mats i).transparent = (gs.mats i).transparent ∧
    ((gatherClassify gs oId l v).mats i).wboitEnabled = (gs.mats i).wboitEnabled := by
  simp only [gatherClassify]
  split
  · split
    · exact setDepthAll_stable l gs.mats true true i
    · exact setDepthAll_stable l gs.mats true false i
  · exact ⟨rfl, rfl⟩

theorem mem_classify_opaqueGroup (gs : GatherOut) (oId : Nat) (l : List Nat) (v : Bool) (x : Nat) :
    (x ∈ (gatherClassify gs oId l v).opaqueMeshes) ↔
      (x ∈ gs.opaqueMeshes ∨ (x = oId ∧ allTransparent gs.mats l = false)) := by
  simp only [gatherClassify, foldFlags_fst, foldFlags_snd]
  cases hT : allTransparent gs.mats l <;> cases hW : allWboitEnabled gs.mats l <;>
    simp [hT, hW, List.mem_append]

theorem mem_classify_transparent (gs : GatherOut) (oId : Nat) (l : List Nat) (v : Bool) (x : Nat) :
    (x ∈ (gatherClassify gs oId l v).transparentMeshes) ↔
      (x ∈ gs.transparentMeshes ∨
        (x = oId ∧ allTransparent gs.mats l = true ∧ allWboitEnabled gs.mats l = false)) := by
  simp only [gatherClassify, foldFlags_fst, foldFlags_snd]
  cases hT : allTransparent gs.mats l <;> cases hW : allWboitEnabled gs.mats l <;>
    simp [hT, hW, List.mem_append]

theorem mem_classify_wboit (gs : GatherOut) (oId : Nat) (l : List Nat) (v : Bool) (x : Nat) :
    (x ∈ (gatherClassify gs oId l v).wboitMeshes) ↔
      (x ∈ gs.wboitMeshes ∨
        (x = oId ∧ allTransparent gs.mats l = true ∧ allWboitEnabled gs.mats l = true)) := by
  simp only [gatherClassify, foldFlags_fst, foldFlags_snd]
  cases hT : allTransparent gs.mats l <;> cases hW : allWboitEnabled gs.mats l <;>
    simp [hT, hW, List.mem_append]

theorem step_stable (objs : Nat → ObjState) (gs : GatherOut) (o i : Nat) :
    ((gatherStep objs gs o).mats i).transparent = (gs.mats i).transparent ∧
    ((gatherStep objs gs o).mats i).wboitEnabled = (gs.mats i).wboitEnabled := by
  unfold gatherStep
  cases hm : (objs o).material with
  | none => exact ⟨rfl, rfl⟩
  | some l =>
    cases hv : (objs o).visible with
    | false => exact ⟨rfl, rfl⟩
    | true => exact classify_stable gs o l true i

theorem step_allT (objs : Nat → ObjState) (gs : GatherOut) (o : Nat) (L : List Nat) :
    allTransparent (gatherStep objs gs o).mats L = allTransparent gs.mats L :=
  all_congr_ids (fun i _ => (step_stable objs gs o i).1)

theorem step_allW (objs : Nat → ObjState) (gs : GatherOut) (o : Nat) (L : List Nat) :
    allWboitEnabled (gatherStep objs gs o).mats L = allWboitEnabled gs.mats L :=
  all_congr_ids (fun i _ => (step_stable objs gs o i).2)

theorem mem_step_opaqueGroup (objs : Nat → ObjState) (gs : GatherOut) (o x : Nat) :
    (x ∈ (gatherStep objs gs o).opaqueMeshes) ↔
      (x ∈ gs.opaqueMeshes ∨
        (x = o ∧ visitsB objs o = true ∧
          allTransparent gs.mats (matListOf objs o) = false)) := by
  unfold gatherStep
  cases hm : (objs o).material with
  | none => simp [visitsB, hm]
  | some l =>
    cases hv : (objs o).visible with
    | false =>
      simp [visitsB, hm, hv]
    | true =>
      show (x ∈ (gatherClassify gs o l true).opaqueMeshes) ↔ _
      rw [mem_classify_opaqueGroup]
      simp [visitsB, hm, hv, matListOf]

theorem mem_step_transparent (objs : Nat → ObjState) (gs : GatherOut) (o x : Nat) :
    (x ∈ (gatherStep objs gs o).transparentMeshes) ↔
      (x ∈ gs.transparentMeshes ∨
        (x = o ∧ visitsB objs o = true ∧
          allTransparent gs.mats (matListOf objs o) = true ∧
          allWboitEnabled gs.mats (matListOf objs o) = false)) := by
  unfold gatherStep
  cases hm : (objs o).material with
  | none => simp [visitsB, hm]
  | some l =>
    cases hv : (objs o).visible with
    | false =>
      simp [visitsB, hm, hv]
    | true =>
      show (x ∈ (gatherClassify gs o l true).transparentMeshes) ↔ _
      rw [mem_classify_transparent]
      simp [visitsB, hm, hv, matListOf]

theorem mem_step_wboit (objs : Nat → ObjState) (gs : GatherOut) (o x : Nat) :
    (x ∈ (gatherStep objs gs o).wboitMeshes) ↔
      (x ∈ gs.wboitMeshes ∨
        (x = o ∧ visitsB objs o = true ∧
          allTransparent gs.mats (matListOf objs o) = true ∧
          allWboitEnabled gs.mats (matListOf objs o) = true)) := by
  unfold gatherStep
  cases hm : (objs o).material with
  | none => simp [visitsB, hm]
  | some l =>
    cases hv : (objs o).visible with
    | false =>
      simp [visitsB, hm, hv]
    | true =>
      show (x ∈ (gatherClassify gs o l true).wboitMeshes) ↔ _
      rw [mem_classify_wboit]
      simp [visitsB, hm, hv, matListOf]

theorem mem_gather_fold (objs : Nat → ObjState) (proj : GatherOut → List Nat)
    (cond : (Nat → MatState) → Nat → Prop)
    (hstep : ∀ (gs : GatherOut) (o x : Nat),
      (x ∈ proj (gatherStep objs gs o)) ↔ (x ∈ proj gs ∨ (x = o ∧ cond gs.mats o)))
    (hcond : ∀ (gs : GatherOut) (o y : Nat),
      cond (gatherStep objs gs o).mats y ↔ cond gs.mats y) :
    ∀ (scene : List Nat) (gs : GatherOut) (x : Nat),
      (x ∈ proj (scene.foldl (gatherStep objs) gs)) ↔
        (x ∈ proj gs ∨ (x ∈ scene ∧ cond gs.mats x)) := by
  intro scene
  induction scene with
  | nil =>
    intro gs x
    simp
  | cons o r ih =>
    intro gs x
    show (x ∈ proj (r.foldl (gatherStep objs) (gatherStep objs gs o))) ↔ _
    rw [ih (gatherStep objs gs o) x, hstep gs o x, hcond gs o x]
    constructor
    · rintro ((h | ⟨rfl, hc⟩) | ⟨hr, hc⟩)
      · exact Or.inl h
      · exact Or.inr ⟨List.mem_cons_self x r, hc⟩
      · exact Or.inr ⟨List.mem_cons_of_mem o hr, hc⟩
    · rintro (h | ⟨hmem, hc⟩)
      · exact Or.inl (Or.inl h)
      · rcases List.mem_cons.mp hmem with rfl | hr
        · exact Or.inl (Or.inr ⟨rfl, hc⟩)
        · exact Or.inr ⟨hr, hc⟩

theorem mem_gatherMeshes_opaqueGroup (scene : List Nat) (objs : Nat → ObjState)
    (mats : Nat → MatState) (x : Nat) :
    (x ∈ (gatherMeshes scene objs mats).opaqueMeshes) ↔
      (x ∈ scene ∧ visitsB objs x = true ∧
        allTransparent mats (matListOf objs x) = false) := by
  unfold gatherMeshes
  rw [mem_gather_fold objs (fun g => g.opaqueMeshes)
      (fun m y => visitsB objs y = true ∧ allTransparent m (matListOf objs y) = false)
      (fun gs o x => mem_step_opaqueGroup objs gs o x)
      (fun gs o y => by simp only [step_allT objs gs o (matListOf objs y)])
      scene (initGather mats) x]
  simp [initGather]

theorem mem_gatherMeshes_transparent (scene : List Nat) (objs : Nat → ObjState)
    (mats : Nat → MatState) (x : Nat) :
    (x ∈ (gatherMeshes scene objs mats).transparentMeshes) ↔
      (x ∈ scene ∧ visitsB objs x = true ∧
        allTransparent mats (matListOf objs x) = true ∧
        allWboitEnabled mats (matListOf objs x) = false) := by
  unfold gatherMeshes
  rw [mem_gather_fold objs (fun g => g.transparentMeshes)
      (fun m y => visitsB objs y = true ∧ allTransparent m (matListOf objs y) = true ∧
        allWboitEnabled m (matListOf objs y) = false)
      (fun gs o x => mem_step_transparent objs gs o x)
      (fun gs o y => by
        simp only [step_allT objs gs o (matListOf objs y),
          step_allW objs gs o (matListOf objs y)])
      scene (initGather mats) x]
  simp [initGather]

theorem mem_gatherMeshes_wboit (scene : List Nat) (objs : Nat → ObjState)
    (mats : Nat → MatState) (x : Nat) :
    (x ∈ (gatherMeshes scene objs mats).wboitMeshes) ↔
      (x ∈ scene ∧ visitsB objs x = true ∧
        allTransparent mats (matListOf objs x) = true ∧
        allWboitEnabled mats (matListOf objs x) = true) := by
  unfold gatherMeshes
  rw [mem_gather_fold objs (fun g => g.wboitMeshes)
      (fun m y => visitsB objs y = true ∧ allTransparent m (matListOf objs y) = true ∧
        allWboitEnabled m (matListOf objs y) = true)
      (fun gs o x => mem_step_wboit objs gs o x)
      (fun gs o y => by
        simp only [step_allT objs gs o (matListOf objs y),
          step_allW objs gs o (matListOf objs y)])
      scene (initGather mats) x]
  simp [initGather]

/-! ## C4: the classification rule -/

/-- C4: a visible scene object with material list `l` (one or more materials)
lands in the WBOIT group iff every one of its materials has
`transparent == true` and `wboitEnabled == true`; failing that it lands in
the transparent group iff every material is transparent; and it lands in the
opaque group iff not every material is transparent (so an object mixing
transparent and opaque materials is classified opaque). -/
theorem gatherMeshes_classification
    (scene : List Nat) (objs : Nat → ObjState) (mats : Nat → MatState)
    (o : Nat) (l : List Nat) (ho : o ∈ scene) (hm : (objs o).material = some l)
    (_hne : l ≠ []) (hv : (objs o).visible = true) :
    ((o ∈ (gatherMeshes scene objs mats).wboitMeshes) ↔
      (∀ i ∈ l, (mats i).transparent = true ∧ (mats i).wboitEnabled = true)) ∧
    ((¬ ∀ i ∈ l, (mats i).transparent = true ∧ (mats i).wboitEnabled = true) →
      ((o ∈ (gatherMeshes scene objs mats).transparentMeshes) ↔
        (∀ i ∈ l, (mats i).transparent = true))) ∧
    ((o ∈ (gatherMeshes scene objs mats).opaqueMeshes) ↔
      (¬ ∀ i ∈ l, (mats i).transparent = true)) := by
  have hvis : visitsB objs o = true := by
    unfold visitsB
    rw [hm, hv]
    rfl
  have hml : matListOf objs o = l := by
    unfold matListOf
    rw [hm]
    rfl
  have hallT : (allTransparent mats l = true) ↔ (∀ i ∈ l, (mats i).transparent = true) := by
    unfold allTransparent
    exact List.all_eq_true
  have hallW : (allWboitEnabled mats l = true) ↔ (∀ i ∈ l, (mats i).wboitEnabled = true) := by
    unfold allWboitEnabled
    exact List.all_eq_true
  have hsplit : (∀ i ∈ l, (mats i).transparent = true ∧ (mats i).wboitEnabled = true) ↔
      ((∀ i ∈ l, (mats i).transparent = true) ∧ (∀ i ∈ l, (mats i).wboitEnabled = true)) :=
    ⟨fun h => ⟨fun i hi => (h i hi).1, fun i hi => (h i hi).2⟩,
     fun h i hi => ⟨h.1 i hi, h.2 i hi⟩⟩
  refine ⟨?_, ?_, ?_⟩
  · rw [mem_gatherMeshes_wboit, hml, hsplit, ← hallT, ← hallW]
    constructor
    · rintro ⟨_, _, h1, h2⟩
      exact ⟨h1, h2⟩
    · rintro ⟨h1, h2⟩
      exact ⟨ho, hvis, h1, h2⟩
  · intro hnw
    rw [mem_gatherMeshes_transparent, hml]
    constructor
    · rintro ⟨_, _, h1, _⟩
      exact hallT.mp h1
    · intro hat
      refine ⟨ho, hvis, hallT.mpr hat, ?_⟩
      cases hwb : allWboitEnabled mats l with
      | false => rfl
      | true =>
        exact absurd (hsplit.mpr ⟨hat, hallW.mp hwb⟩) hnw
  · rw [mem_gatherMeshes_opaqueGroup, hml]
    constructor
    · rintro ⟨_, _, h1⟩ hat
      rw [hallT.mpr hat] at h1
      exact absurd h1 (by decide)
    · intro hat
      refine ⟨ho, hvis, ?_⟩
      cases ht : allTransparent mats l with
      | false => rfl
      | true => exact absurd (hallT.mp ht) hat

/-- Witness for C4: on a one-object scene whose material is WBOIT-capable,
the object lands in the WBOIT group; with a plain transparent material it
lands in the transparent group; with an opaque material, in the opaque
group. -/
theorem gatherMeshes_classification_witness :
    (0 ∈ (gatherMeshes [0] (fun _ => visObj) (fun _ => wboitUniformMat)).wboitMeshes) ∧
    (0 ∈ (gatherMeshes [0] (fun _ => visObj) (fun _ => transMat)).transparentMeshes) ∧
    (0 ∈ (gatherMeshes [0] (fun _ => visObj) (fun _ => plainMat)).opaqueMeshes) :=
  ⟨(gatherMeshes_classification [0] (fun _ => visObj) (fun _ => wboitUniformMat)
      0 [0] (by decide) rfl (by decide) rfl).1.mpr (by decide),
   ((gatherMeshes_classification [0] (fun _ => visObj) (fun _ => transMat)
      0 [0] (by decide) rfl (by decide) rfl).2.1 (by decide)).mpr (by decide),
   (gatherMeshes_classification [0] (fun _ => visObj) (fun _ => plainMat)
      0 [0] (by decide) rfl (by decide) rfl).2.2.mpr (by decide)⟩

/-! ## C3: partition of the classified objects -/

/-- C3 counterexample: an object that has a material but is invisible is
skipped by `gatherMeshes` and appears in none of the three groups, refuting
the claim that every object with a material appears in exactly one group. -/
theorem gatherMeshes_invisible_counterexample :
    (invisObj).material = some [0] ∧
    (0 ∉ (gatherMeshes [0] (fun _ => invisObj) (fun _ => transMat)).opaqueMeshes) ∧
    (0 ∉ (gatherMeshes [0] (fun _ => invisObj) (fun _ => transMat)).transparentMeshes) ∧
    (0 ∉ (gatherMeshes [0] (fun _ => invisObj) (fun _ => transMat)).wboitMeshes) := by
  decide

/-- C3 amended: every *visible* scene object with a (truthy) material appears
in exactly one of the three groups after classification, and the groups are
pairwise disjoint over all objects; an invisible object (or one without a
material) appears in no group. -/
theorem gatherMeshes_partition
    (scene : List Nat) (objs : Nat → ObjState) (mats : Nat → MatState) (o : Nat) :
    ((o ∈ scene → ((objs o).material).isSome = true → (objs o).visible = true →
      ((o ∈ (gatherMeshes scene objs mats).opaqueMeshes ∧
        o ∉ (gatherMeshes scene objs mats).transparentMeshes ∧
        o ∉ (gatherMeshes scene objs mats).wboitMeshes) ∨
       (o ∉ (gatherMeshes scene objs mats).opaqueMeshes ∧
        o ∈ (gatherMeshes scene objs mats).transparentMeshes ∧
        o ∉ (gatherMeshes scene objs mats).wboitMeshes) ∨
       (o ∉ (gatherMeshes scene objs mats).opaqueMeshes ∧
        o ∉ (gatherMeshes scene objs mats).transparentMeshes ∧
        o ∈ (gatherMeshes scene objs mats).wboitMeshes)))) ∧
    (¬ (o ∈ (gatherMeshes scene objs mats).opaqueMeshes ∧
        o ∈ (gatherMeshes scene objs mats).transparentMeshes)) ∧
    (¬ (o ∈ (gatherMeshes scene objs mats).opaqueMeshes ∧
        o ∈ (gatherMeshes scene objs mats).wboitMeshes)) ∧
    (¬ (o ∈ (gatherMeshes scene objs mats).transparentMeshes ∧
        o ∈ (gatherMeshes scene objs mats).wboitMeshes)) ∧
    ((objs o).visible = false →
      o ∉ (gatherMeshes scene objs mats).opaqueMeshes ∧
      o ∉ (gatherMeshes scene objs mats).transparentMeshes ∧
      o ∉ (gatherMeshes scene objs mats).wboitMeshes) := by
  rw [mem_gatherMeshes_opaqueGroup, mem_gatherMeshes_transparent, mem_gatherMeshes_wboit]
  cases hT : allTransparent mats (matListOf objs o) <;>
    cases hW : allWboitEnabled mats (matListOf objs o) <;>
      simp [hT, hW, visitsB, Bool.and_eq_true] <;>
        tauto

/-- Witness for the amended C3: a visible one-material transparent object
lands in exactly one group (here the transparent one), and an invisible one
in none. -/
theorem gatherMeshes_partition_witness :
    ((0 ∈ (gatherMeshes [0] (fun _ => visObj) (fun _ => transMat)).opaqueMeshes ∧
      0 ∉ (gatherMeshes [0] (fun _ => visObj) (fun _ => transMat)).transparentMeshes ∧
      0 ∉ (gatherMeshes [0] (fun _ => visObj) (fun _ => transMat)).wboitMeshes) ∨
     (0 ∉ (gatherMeshes [0] (fun _ => visObj) (fun _ => transMat)).opaqueMeshes ∧
      0 ∈ (gatherMeshes [0] (fun _ => visObj) (fun _ => transMat)).transparentMeshes ∧
      0 ∉ (gatherMeshes [0] (fun _ => visObj) (fun _ => transMat)).wboitMeshes) ∨
     (0 ∉ (gatherMeshes [0] (fun _ => visObj) (fun _ => transMat)).opaqueMeshes ∧
      0 ∉ (gatherMeshes [0] (fun _ => visObj) (fun _ => transMat)).transparentMeshes ∧
      0 ∈ (gatherMeshes [0] (fun _ => visObj) (fun _ => transMat)).wboitMeshes)) ∧
    (0 ∉ (gatherMeshes [0] (fun _ => invisObj) (fun _ => transMat)).opaqueMeshes ∧
     0 ∉ (gatherMeshes [0] (fun _ => invisObj) (fun _ => transMat)).transparentMeshes ∧
     0 ∉ (gatherMeshes [0] (fun _ => invisObj) (fun _ => transMat)).wboitMeshes) :=
  ⟨(gatherMeshes_partition [0] (fun _ => visObj) (fun _ => transMat) 0).1
     (by decide) rfl rfl,
   (gatherMeshes_partition [0] (fun _ => invisObj) (fun _ => transMat) 0).2.2.2.2 rfl⟩

end Wboit
